import Mathlib

set_option autoImplicit false

/-!
Shallow embedding of hphp/runtime/vm/vm-regs.cpp: the VM register
synchronization anchor (`VMRegAnchor`, both constructors), and the
debug-mode invalidity guard (`AssertVMUnused`, `AssertVMUnusedDisabler`)
with its `protect`/`deprotect` helpers.  Thread-local globals become an
explicit state record; a failed `assert`/`always_assert` (a fatal abort)
becomes `none`.
-/

namespace HPHP

/-- Register dirtiness flag: thread-private `tl_regState` of type `VMRegState`. -/
inductive VMRegState where
  | CLEAN
  | DIRTY
deriving DecidableEq, Repr

/-- Bytecode position: the result of `unit()->at(offset)`, modelled as the
unit's identity paired with the absolute offset. -/
structure PC where
  unitId : Nat
  off : Nat
deriving DecidableEq, Repr

/-- Function metadata read by `VMRegAnchor::VMRegAnchor(ActRec*)`:
`Func::base()` and the owning unit. -/
structure Func where
  base : Nat
  unitId : Nat
deriving DecidableEq, Repr

/-- Pure lookup `unit->at(off)`. -/
def unitAt (u : Nat) (off : Nat) : PC := ⟨u, off⟩

/-- Activation-record fields the frame-local anchor reads: the record's
address, its owning function `m_func`, `numArgs()`, the saved return offset
`m_soff` and the `resumed()` flag. -/
structure ActRec where
  addr : Nat
  m_func : Func
  numArgs : Nat
  m_soff : Nat
  resumed : Bool
deriving DecidableEq, Repr

/-- Canonical register bundle `vmRegs()`: program counter, frame pointer and
operand-stack top (an address, kept as `Int` for the pointer subtraction). -/
structure VMRegs where
  pc : PC
  fp : ActRec
  stackTop : Int
deriving DecidableEq, Repr

/-- Thread-local VM register state: `tl_regState` plus the canonical bundle. -/
structure ThreadVMState where
  regState : VMRegState
  regs : VMRegs
deriving DecidableEq, Repr

/-- The scoped anchor object: `m_old` saves `tl_regState` at construction. -/
structure VMRegAnchor where
  m_old : VMRegState
deriving DecidableEq, Repr

/-- Modelled from the spec: `jit::syncVMRegs()` lives under
hphp/runtime/vm/jit/, not under src/.  Per the spec's full-sync contract it
inspects the native registers (modelled by the parameter `hw`), writes the
canonical bundle, and leaves the flag CLEAN on return. -/
def syncVMRegs (hw : VMRegs) (_s : ThreadVMState) : ThreadVMState :=
  ⟨VMRegState.CLEAN, hw⟩

/-- Full-sync construction `VMRegAnchor::VMRegAnchor()`: saves the old flag,
checks native-stack alignment (`assert_native_stack_aligned`, fatal when
violated, modelled as `none`), then delegates to `jit::syncVMRegs()`. -/
def vmRegAnchorFull (stackAligned : Bool) (hw : VMRegs) (s : ThreadVMState) :
    Option (VMRegAnchor × ThreadVMState) :=
  if stackAligned then some (⟨s.regState⟩, syncVMRegs hw s) else none

/-- Frame-local construction `VMRegAnchor::VMRegAnchor(ActRec* ar)`: saves
the old flag, asserts `tl_regState == DIRTY`, sets it CLEAN, looks up
`g_context->getOuterVMFrame(ar)` (external, a parameter here), asserts
`!ar->resumed()`, computes `stack.top() = (TypedValue*)ar - ar->numArgs()`
(`slotSize` stands for `sizeof(TypedValue)`), asserts
`vmStack().isValidAddress` (external, a parameter here), and sets
`pc = prevF->unit()->at(prevF->base() + ar->m_soff)` and `fp = prevAr`.
A failed assertion is `none` (fatal). -/
def vmRegAnchorFrame (slotSize : Nat) (getOuterVMFrame : ActRec → ActRec)
    (isValidAddress : Int → Bool) (s : ThreadVMState) (ar : ActRec) :
    Option (VMRegAnchor × ThreadVMState) :=
  if s.regState = VMRegState.DIRTY then
    let prevAr := getOuterVMFrame ar
    let prevF := prevAr.m_func
    if ar.resumed then none
    else
      let top : Int := (ar.addr : Int) - ((ar.numArgs * slotSize : Nat) : Int)
      if isValidAddress top then
        some (⟨s.regState⟩,
          ⟨VMRegState.CLEAN,
            ⟨unitAt prevF.unitId (prevF.base + ar.m_soff), prevAr, top⟩⟩)
      else none
  else none

/-- Modelled from the spec: the destructor of `VMRegAnchor` is declared in
vm-regs.h, which is not under src/.  Per the spec, release restores the
RegisterStateFlag saved at construction and does not touch the canonical
bundle. -/
def vmRegAnchorRelease (a : VMRegAnchor) (s : ThreadVMState) : ThreadVMState :=
  { s with regState := a.m_old }

/-- The guard object `AssertVMUnused`: an identity standing for its address
(used for the `tl_top_prot == this` comparison) plus the snapshot
`{m_oldBase, m_oldState, m_oldProt}` taken by the member initializers. -/
structure AssertVMUnused where
  id : Nat
  m_oldBase : Option Nat
  m_oldState : VMRegState
  m_oldProt : Bool
deriving DecidableEq, Repr

/-- Thread-local state touched by the guard machinery: `rds::tl_base` (the
bound segment handle, `none` for nullptr), `tl_regState`,
`AssertVMUnused::is_protected` and `tl_top_prot`. -/
structure GuardThreadState where
  tl_base : Option Nat
  regState : VMRegState
  is_protected : Bool
  tl_top_prot : Option AssertVMUnused
deriving DecidableEq, Repr

inductive MemProt where
  | PROT_READ
deriving DecidableEq, Repr

/-- Descriptor of the `mprotect` call issued by `protect`. -/
structure MProtectCall where
  base : Nat
  len : Int
  prot : MemProt
deriving DecidableEq, Repr

/-- First half of `protect()`: `rds::tl_base = nullptr`,
`tl_regState = VMRegState::DIRTY`, `AssertVMUnused::is_protected = true`. -/
def protectClear (s : GuardThreadState) : GuardThreadState :=
  { s with tl_base := none, regState := VMRegState.DIRTY, is_protected := true }

/-- `protect()`: clear, then `rds::threadInit()` (binds the fresh throwaway
segment `initBase`), compute `protlen` up to
`rds::persistentSection().begin()` (the parameter `persistentBegin`), call
`mprotect(rds::tl_base, protlen, PROT_READ)` and `always_assert` its result
`mres` is zero — a nonzero result is fatal (`none`). -/
def protect (initBase persistentBegin : Nat) (mres : Int) (s : GuardThreadState) :
    Option (GuardThreadState × MProtectCall) :=
  let s1 := protectClear s
  let s2 := { s1 with tl_base := some initBase }
  if mres = 0 then
    some (s2, ⟨initBase, (persistentBegin : Int) - (initBase : Int), MemProt.PROT_READ⟩)
  else none

/-- `deprotect(base, state, prot)`: `rds::threadExit()` tears the current
throwaway segment down, then the saved triple is restored verbatim:
`is_protected = prot; tl_regState = state; rds::tl_base = base`. -/
def deprotect (base : Option Nat) (state : VMRegState) (prot : Bool)
    (s : GuardThreadState) : GuardThreadState :=
  { s with is_protected := prot, regState := state, tl_base := base }

/-- `AssertVMUnused::AssertVMUnused()`: the member initializers snapshot
`{rds::tl_base, tl_regState, is_protected}`; if no segment is bound the body
returns at once; otherwise, if `tl_top_prot == nullptr`, record self as the
top-level guard, then `protect()`.  Returns the constructed guard, the new
thread state, and the `mprotect` call when one was issued; `none` when
`protect` aborted fatally. -/
def assertVMUnusedCtor (myId initBase persistentBegin : Nat) (mres : Int)
    (s : GuardThreadState) :
    Option (AssertVMUnused × GuardThreadState × Option MProtectCall) :=
  let g : AssertVMUnused := ⟨myId, s.tl_base, s.regState, s.is_protected⟩
  match s.tl_base with
  | none => some (g, s, none)
  | some _ =>
    let s1 := if s.tl_top_prot = none then { s with tl_top_prot := some g } else s
    match protect initBase persistentBegin mres s1 with
    | none => none
    | some (s2, call) => some (g, s2, some call)

/-- `AssertVMUnused::~AssertVMUnused()`: returns at once when `m_oldBase` is
null; otherwise `deprotect` with the saved triple, and clear `tl_top_prot`
when self is the recorded top-level guard. -/
def assertVMUnusedDtor (g : AssertVMUnused) (s : GuardThreadState) : GuardThreadState :=
  match g.m_oldBase with
  | none => s
  | some _ =>
    let s1 := deprotect g.m_oldBase g.m_oldState g.m_oldProt s
    match s1.tl_top_prot with
    | some t => if t.id = g.id then { s1 with tl_top_prot := none } else s1
    | none => s1

/-- `AssertVMUnusedDisabler::AssertVMUnusedDisabler()`: when a top-level
guard is recorded, `deprotect` with that guard's saved triple; otherwise do
nothing. -/
def assertVMUnusedDisablerCtor (s : GuardThreadState) : GuardThreadState :=
  match s.tl_top_prot with
  | some g => deprotect g.m_oldBase g.m_oldState g.m_oldProt s
  | none => s

/-- `AssertVMUnusedDisabler::~AssertVMUnusedDisabler()`: when a top-level
guard is recorded, `protect()` again; otherwise do nothing. -/
def assertVMUnusedDisablerDtor (initBase persistentBegin : Nat) (mres : Int)
    (s : GuardThreadState) : Option GuardThreadState :=
  match s.tl_top_prot with
  | some _ => (protect initBase persistentBegin mres s).map Prod.fst
  | none => some s

/-- Balanced LIFO nest of `n` `AssertVMUnusedDisabler` pairs: the outermost
pair encloses the rest; `fb`/`fpers` give the fresh throwaway segment base
and persistent boundary for each re-protect, `fm` the mprotect results. -/
def runDisablers (fb fpers : Nat → Nat) (fm : Nat → Int) :
    Nat → GuardThreadState → Option GuardThreadState
  | 0, s => some s
  | Nat.succ n, s =>
    match runDisablers fb fpers fm n (assertVMUnusedDisablerCtor s) with
    | none => none
    | some s2 => assertVMUnusedDisablerDtor (fb n) (fpers n) (fm n) s2

/-- Concrete caller frame for the synthetic two-level call chain: its
function has bytecode base offset 100 and lives in unit 7. -/
def c1CallerFrame : ActRec := ⟨0x2000, ⟨100, 7⟩, 0, 0, false⟩

/-- Concrete callee frame: address 0x1000, two arguments, saved return
offset 5, not resumed. -/
def c1CalleeFrame : ActRec := ⟨0x1000, ⟨300, 7⟩, 2, 5, false⟩

/-- Arbitrary initial canonical bundle for the synthetic chain. -/
def c1InitRegs : VMRegs := ⟨unitAt 7 300, c1CalleeFrame, 0⟩

/-- Concrete guard object for witnesses: identity 11, saved triple
{some 500, CLEAN, false}. -/
def sampleGuard : AssertVMUnused := ⟨11, some 500, VMRegState.CLEAN, false⟩

/-- Concrete thread state with a segment bound and no guard active. -/
def sampleBound : GuardThreadState := ⟨some 500, VMRegState.CLEAN, false, none⟩

/-- Concrete thread state under an active top-level guard `sampleGuard`. -/
def sampleTop : GuardThreadState := ⟨some 640, VMRegState.DIRTY, true, some sampleGuard⟩

/-- Concrete thread state with no segment bound. -/
def sampleUnbound : GuardThreadState := ⟨none, VMRegState.CLEAN, false, none⟩

/-- C1: with caller function base offset 100, callee saved return offset 5,
argument count 2, stack slot size 8 bytes and callee frame address 0x1000,
frame-local reconstruction under the DIRTY precondition yields
programCounter = unit.at(105), stackTop = 0x1000 − 2·8 = 0x0FF0, and
framePointer = the caller frame returned by the outer-frame lookup. -/
theorem frame_anchor_arith :
    vmRegAnchorFrame 8 (fun _ => c1CallerFrame) (fun _ => true)
      ⟨VMRegState.DIRTY, c1InitRegs⟩ c1CalleeFrame
    = some (⟨VMRegState.DIRTY⟩,
        ⟨VMRegState.CLEAN, ⟨unitAt 7 105, c1CallerFrame, 0x0FF0⟩⟩) := by
  decide

/-- C7: invoking the frame-local construction when the flag is CLEAN hits the
fatal assertion `assert(tl_regState == VMRegState::DIRTY)`; no reconstruction
is performed. -/
theorem frame_anchor_clean_fatal (slotSize : Nat) (f : ActRec → ActRec)
    (v : Int → Bool) (s : ThreadVMState) (ar : ActRec)
    (h : s.regState = VMRegState.CLEAN) :
    vmRegAnchorFrame slotSize f v s ar = none := by
  simp [vmRegAnchorFrame, h]

theorem frame_anchor_clean_fatal_witness :
    vmRegAnchorFrame 8 (fun _ => c1CallerFrame) (fun _ => true)
      ⟨VMRegState.CLEAN, c1InitRegs⟩ c1CalleeFrame = none :=
  frame_anchor_clean_fatal 8 (fun _ => c1CallerFrame) (fun _ => true)
    ⟨VMRegState.CLEAN, c1InitRegs⟩ c1CalleeFrame rfl

/-- C8: invoking the frame-local construction on a resumed activation record
is fatal, whatever the current flag: with the flag DIRTY the assertion
`assert(!ar->resumed())` fires, and with any other flag the DIRTY
precondition assertion fires first. -/
theorem frame_anchor_resumed_fatal (slotSize : Nat) (f : ActRec → ActRec)
    (v : Int → Bool) (s : ThreadVMState) (ar : ActRec)
    (h : ar.resumed = true) :
    vmRegAnchorFrame slotSize f v s ar = none := by
  unfold vmRegAnchorFrame
  split
  · simp [h]
  · rfl

theorem frame_anchor_resumed_fatal_witness :
    vmRegAnchorFrame 8 (fun _ => c1CallerFrame) (fun _ => true)
      ⟨VMRegState.DIRTY, c1InitRegs⟩ ⟨0x1000, ⟨300, 7⟩, 2, 5, true⟩ = none :=
  frame_anchor_resumed_fatal 8 (fun _ => c1CallerFrame) (fun _ => true)
    ⟨VMRegState.DIRTY, c1InitRegs⟩ ⟨0x1000, ⟨300, 7⟩, 2, 5, true⟩ rfl

/-- C6: release restores the flag saved at construction — and both
construction forms save exactly the pre-construction flag — never
unconditionally CLEAN, and leaves the canonical bundle untouched; nesting
two full-sync anchors, the inner release restores CLEAN (the outer's
established state) and the outer release restores the pre-outer flag while
keeping the bundle written by the inner synchronisation. -/
theorem anchor_release_restores (a : VMRegAnchor) (t s u : ThreadVMState)
    (hw1 hw2 hw : VMRegs) (al : Bool) (slot : Nat) (f : ActRec → ActRec)
    (v : Int → Bool) (ar : ActRec) :
    (vmRegAnchorRelease a t).regState = a.m_old ∧
    (vmRegAnchorRelease a t).regs = t.regs ∧
    (vmRegAnchorFull al hw u).map Prod.fst
      = (vmRegAnchorFull al hw u).map (fun _ => ⟨u.regState⟩) ∧
    (vmRegAnchorFrame slot f v u ar).map Prod.fst
      = (vmRegAnchorFrame slot f v u ar).map (fun _ => ⟨u.regState⟩) ∧
    vmRegAnchorFull true hw1 s = some (⟨s.regState⟩, ⟨VMRegState.CLEAN, hw1⟩) ∧
    vmRegAnchorFull true hw2 ⟨VMRegState.CLEAN, hw1⟩
      = some (⟨VMRegState.CLEAN⟩, ⟨VMRegState.CLEAN, hw2⟩) ∧
    vmRegAnchorRelease ⟨VMRegState.CLEAN⟩ ⟨VMRegState.CLEAN, hw2⟩
      = ⟨VMRegState.CLEAN, hw2⟩ ∧
    vmRegAnchorRelease ⟨s.regState⟩ ⟨VMRegState.CLEAN, hw2⟩
      = ⟨s.regState, hw2⟩ := by
  refine ⟨rfl, rfl, ?_, ?_, rfl, rfl, rfl, rfl⟩
  · cases al <;> rfl
  · unfold vmRegAnchorFrame
    split
    · split
      · rfl
      · dsimp only
        split <;> rfl
    · rfl

/-- With a successful mprotect, `protect` rebinds the throwaway segment,
forces DIRTY, raises the protection flag, keeps the top-level reference, and
issues a read-only call over exactly the pre-persistent region. -/
lemma protect_zero (b p : Nat) (s : GuardThreadState) :
    protect b p 0 s = some (⟨some b, VMRegState.DIRTY, true, s.tl_top_prot⟩,
      ⟨b, (p : Int) - (b : Int), MemProt.PROT_READ⟩) := rfl

/-- Exact output of the guard constructor when a segment is bound and the
mprotect call succeeds. -/
lemma assertVMUnusedCtor_some (myId b p : Nat) (s : GuardThreadState) (seg : Nat)
    (h : s.tl_base = some seg) :
    assertVMUnusedCtor myId b p 0 s =
      some (⟨myId, s.tl_base, s.regState, s.is_protected⟩,
            ⟨some b, VMRegState.DIRTY, true,
              if s.tl_top_prot = none
              then some ⟨myId, s.tl_base, s.regState, s.is_protected⟩
              else s.tl_top_prot⟩,
            some ⟨b, (p : Int) - (b : Int), MemProt.PROT_READ⟩) := by
  rcases s with ⟨tb, rs, ip, tp⟩
  dsimp only at h
  subst h
  by_cases htp : tp = none <;>
    simp [assertVMUnusedCtor, protect, protectClear, htp]

/-- The guard destructor restores the saved triple whenever `m_oldBase` is
non-null, whatever the state it runs on. -/
lemma assertVMUnusedDtor_triple (g : AssertVMUnused) (seg : Nat)
    (h : g.m_oldBase = some seg) (s : GuardThreadState) :
    (assertVMUnusedDtor g s).tl_base = g.m_oldBase ∧
    (assertVMUnusedDtor g s).regState = g.m_oldState ∧
    (assertVMUnusedDtor g s).is_protected = g.m_oldProt := by
  rcases g with ⟨gid, gb, gs, gp⟩
  dsimp only at h
  subst h
  rcases s with ⟨tb, rs, ip, tp⟩
  cases tp with
  | none => exact ⟨rfl, rfl, rfl⟩
  | some t =>
    by_cases ht : t.id = gid <;>
      simp [assertVMUnusedDtor, deprotect, ht]

/-- A Disabler destructor with a successful mprotect never aborts. -/
lemma disablerDtor_zero_isSome (b p : Nat) (s : GuardThreadState) :
    ∃ t, assertVMUnusedDisablerDtor b p 0 s = some t := by
  rcases s with ⟨tb, rs, ip, tp⟩
  cases tp with
  | none => exact ⟨_, rfl⟩
  | some g =>
    exact ⟨⟨some b, VMRegState.DIRTY, true, some g⟩,
      by simp [assertVMUnusedDisablerDtor, protect_zero]⟩

/-- A balanced nest of Disablers with successful mprotect calls never
aborts. -/
lemma runDisablers_total (fb fpers : Nat → Nat) :
    ∀ (n : Nat) (s : GuardThreadState),
      ∃ t, runDisablers fb fpers (fun _ => 0) n s = some t := by
  intro n
  induction n with
  | zero => intro s; exact ⟨s, rfl⟩
  | succ n ih =>
    intro s
    obtain ⟨s2, hs2⟩ := ih (assertVMUnusedDisablerCtor s)
    obtain ⟨t, ht⟩ := disablerDtor_zero_isSome (fb n) (fpers n) s2
    exact ⟨t, by simp [runDisablers, hs2, ht]⟩

/-- C2: constructing the guard with a segment bound first clears the live
segment handle, forces DIRTY and raises the protection flag (`protectClear`),
then rebinds a throwaway segment and issues a read-only mprotect over
exactly the region from its base up to the persistent-section boundary; a
failing mprotect is fatal (`none`), never a half-protected segment. -/
theorem guard_ctor_protects (s : GuardThreadState) (seg : Nat)
    (h : s.tl_base = some seg) (myId b p : Nat) :
    (protectClear s).tl_base = none ∧
    (protectClear s).regState = VMRegState.DIRTY ∧
    (protectClear s).is_protected = true ∧
    assertVMUnusedCtor myId b p 0 s =
      some (⟨myId, s.tl_base, s.regState, s.is_protected⟩,
            ⟨some b, VMRegState.DIRTY, true,
              if s.tl_top_prot = none
              then some ⟨myId, s.tl_base, s.regState, s.is_protected⟩
              else s.tl_top_prot⟩,
            some ⟨b, (p : Int) - (b : Int), MemProt.PROT_READ⟩) ∧
    (∀ mres : Int, mres ≠ 0 → assertVMUnusedCtor myId b p mres s = none) := by
  refine ⟨rfl, rfl, rfl, assertVMUnusedCtor_some myId b p s seg h, ?_⟩
  intro mres hm
  rcases s with ⟨tb, rs, ip, tp⟩
  dsimp only at h
  subst h
  by_cases htp : tp = none <;>
    simp [assertVMUnusedCtor, protect, protectClear, htp, hm]

theorem guard_ctor_protects_witness :
    (protectClear sampleBound).tl_base = none ∧
    assertVMUnusedCtor 1 640 900 0 sampleBound =
      some (⟨1, some 500, VMRegState.CLEAN, false⟩,
            ⟨some 640, VMRegState.DIRTY, true,
              some ⟨1, some 500, VMRegState.CLEAN, false⟩⟩,
            some ⟨640, 260, MemProt.PROT_READ⟩) ∧
    assertVMUnusedCtor 1 640 900 7 sampleBound = none := by
  obtain ⟨h1, _, _, h4, h5⟩ := guard_ctor_protects sampleBound 500 rfl 1 640 900
  exact ⟨h1, by simpa using h4, h5 7 (by decide)⟩

/-- C5: a guard constructed with no segment bound is a no-op: construction
hands back the thread state untouched (the top-level reference included, so
the guard never becomes the top-level guard), records only the null handle
in its snapshot, issues no mprotect call, and its destruction is the
identity on any state. -/
theorem guard_noop_when_unbound (s : GuardThreadState) (h : s.tl_base = none)
    (myId b p : Nat) (mres : Int) :
    assertVMUnusedCtor myId b p mres s
      = some (⟨myId, none, s.regState, s.is_protected⟩, s, none) ∧
    assertVMUnusedDtor ⟨myId, none, s.regState, s.is_protected⟩ s = s := by
  rcases s with ⟨tb, rs, ip, tp⟩
  dsimp only at h
  subst h
  exact ⟨rfl, rfl⟩

theorem guard_noop_when_unbound_witness :
    assertVMUnusedCtor 3 640 900 0 sampleUnbound
      = some (⟨3, none, VMRegState.CLEAN, false⟩, sampleUnbound, none) ∧
    assertVMUnusedDtor ⟨3, none, VMRegState.CLEAN, false⟩ sampleUnbound
      = sampleUnbound :=
  guard_noop_when_unbound sampleUnbound rfl 3 640 900 0

/-- C9: with a top-level guard recorded, a Disabler's construction deprotects
with exactly that guard's saved triple while keeping the top-level reference
on that guard, and its destruction re-protects (throwaway segment rebound,
flag DIRTY, protection flag raised) while the guard is still recorded. -/
theorem disabler_deprotects (s : GuardThreadState) (gp : AssertVMUnused)
    (htop : s.tl_top_prot = some gp) (b p : Nat) :
    assertVMUnusedDisablerCtor s
      = ⟨gp.m_oldBase, gp.m_oldState, gp.m_oldProt, some gp⟩ ∧
    assertVMUnusedDisablerDtor b p 0 (assertVMUnusedDisablerCtor s)
      = some ⟨some b, VMRegState.DIRTY, true, some gp⟩ := by
  rcases s with ⟨tb, rs, ip, tp⟩
  dsimp only at htop
  subst htop
  exact ⟨rfl, by simp [assertVMUnusedDisablerCtor, assertVMUnusedDisablerDtor,
    deprotect, protect_zero]⟩

theorem disabler_deprotects_witness :
    assertVMUnusedDisablerCtor sampleTop
      = ⟨some 500, VMRegState.CLEAN, false, some sampleGuard⟩ ∧
    assertVMUnusedDisablerDtor 660 900 0 (assertVMUnusedDisablerCtor sampleTop)
      = some ⟨some 660, VMRegState.DIRTY, true, some sampleGuard⟩ :=
  disabler_deprotects sampleTop sampleGuard rfl 660 900

/-- C10: with no top-level guard recorded, a Disabler's construction and
destruction leave the thread state untouched: no saved triple is consulted,
no protect call is issued (the destructor succeeds even for a nonzero
mprotect result precisely because mprotect is never reached). -/
theorem disabler_noop_without_guard (s : GuardThreadState)
    (h : s.tl_top_prot = none) (b p : Nat) (mres : Int) :
    assertVMUnusedDisablerCtor s = s ∧
    assertVMUnusedDisablerDtor b p mres s = some s := by
  rcases s with ⟨tb, rs, ip, tp⟩
  dsimp only at h
  subst h
  exact ⟨rfl, rfl⟩

theorem disabler_noop_without_guard_witness :
    assertVMUnusedDisablerCtor sampleBound = sampleBound ∧
    assertVMUnusedDisablerDtor 660 900 5 sampleBound = some sampleBound :=
  disabler_noop_without_guard sampleBound rfl 660 900 5

/-- C3: for every nesting depth of LIFO-balanced Disablers inside a
non-no-op guard, after the guard and all of its internal Disablers are
destructed, the thread's {segmentHandle, RegisterStateFlag, protectionFlag}
triple equals the triple observed immediately before the guard was
constructed. -/
theorem guard_nested_disablers_restore (s : GuardThreadState) (seg : Nat)
    (h : s.tl_base = some seg) (myId b p : Nat) (fb fpers : Nat → Nat)
    (n : Nat) :
    ((assertVMUnusedCtor myId b p 0 s).bind (fun r =>
      (runDisablers fb fpers (fun _ => 0) n r.2.1).map
        (fun t => assertVMUnusedDtor r.1 t))).map
          (fun t => (t.tl_base, t.regState, t.is_protected))
      = some (s.tl_base, s.regState, s.is_protected) := by
  rw [assertVMUnusedCtor_some myId b p s seg h]
  obtain ⟨s2, hs2⟩ := runDisablers_total fb fpers n
    ⟨some b, VMRegState.DIRTY, true,
      if s.tl_top_prot = none
      then some ⟨myId, s.tl_base, s.regState, s.is_protected⟩
      else s.tl_top_prot⟩
  dsimp only [Option.bind, Option.map]
  rw [hs2]
  obtain ⟨h1, h2, h3⟩ := assertVMUnusedDtor_triple
    ⟨myId, s.tl_base, s.regState, s.is_protected⟩ seg h s2
  dsimp only [Option.map]
  rw [h1, h2, h3]

theorem guard_nested_disablers_restore_witness :
    ((assertVMUnusedCtor 1 640 900 0 sampleBound).bind (fun r =>
      (runDisablers (fun _ => 700) (fun _ => 900) (fun _ => 0) 2 r.2.1).map
        (fun t => assertVMUnusedDtor r.1 t))).map
          (fun t => (t.tl_base, t.regState, t.is_protected))
      = some (some 500, VMRegState.CLEAN, false) :=
  guard_nested_disablers_restore sampleBound 500 rfl 1 640 900
    (fun _ => 700) (fun _ => 900) 2

/-- C4: constructing a second guard while one is active does not create a
second top-level protector: the top-level reference stays on the first
guard through the second guard's construction and destruction, and only the
guard recorded as top-level clears the reference at its own destruction. -/
theorem guard_top_level_unique (s : GuardThreadState)
    (seg id1 id2 b1 p1 b2 p2 : Nat)
    (hbase : s.tl_base = some seg) (htop : s.tl_top_prot = none)
    (hid : id1 ≠ id2) :
    ((assertVMUnusedCtor id1 b1 p1 0 s).bind (fun r1 =>
      (assertVMUnusedCtor id2 b2 p2 0 r1.2.1).map (fun r2 =>
        (r1.2.1.tl_top_prot,
         r2.2.1.tl_top_prot,
         (assertVMUnusedDtor r2.1 r2.2.1).tl_top_prot,
         (assertVMUnusedDtor r1.1 (assertVMUnusedDtor r2.1 r2.2.1)).tl_top_prot))))
      = some (some ⟨id1, s.tl_base, s.regState, s.is_protected⟩,
              some ⟨id1, s.tl_base, s.regState, s.is_protected⟩,
              some ⟨id1, s.tl_base, s.regState, s.is_protected⟩,
              none) := by
  rcases s with ⟨tb, rs, ip, tp⟩
  dsimp only at hbase htop
  subst hbase
  subst htop
  simp [assertVMUnusedCtor, protect, protectClear, assertVMUnusedDtor,
    deprotect, Option.bind, hid]

theorem guard_top_level_unique_witness :
    ((assertVMUnusedCtor 1 640 900 0 sampleBound).bind (fun r1 =>
      (assertVMUnusedCtor 2 660 901 0 r1.2.1).map (fun r2 =>
        (r1.2.1.tl_top_prot,
         r2.2.1.tl_top_prot,
         (assertVMUnusedDtor r2.1 r2.2.1).tl_top_prot,
         (assertVMUnusedDtor r1.1 (assertVMUnusedDtor r2.1 r2.2.1)).tl_top_prot))))
      = some (some ⟨1, some 500, VMRegState.CLEAN, false⟩,
              some ⟨1, some 500, VMRegState.CLEAN, false⟩,
              some ⟨1, some 500, VMRegState.CLEAN, false⟩,
              none) :=
  guard_top_level_unique sampleBound 500 1 2 640 900 660 901 rfl rfl
    (by decide)

end HPHP
